import Mathlib

/-!
Shallow embedding of the resilient data-access layer of the
business-opportunity-graph dashboard, together with proofs checking the
natural-language specification against the code.

Embedded sources:
* `src/frontend/src/services/api.js` — HTTP transport error normalisation
  (`enhancedError`), the request wrapper (`apiRequest`) and its verb helpers.
* `src/unnamed/part_003` (the data-service revision with derived statistics
  and territory metrics) — `dataService.getTables` / `getExports` /
  `getNotebooks` / `getScripts` / `getStats` / `getTerritoryMetrics`.
* `src/unnamed/part_004` — the mock fixtures (`mockData`, `mockApi`).
* `src/frontend/src/services/dataService.js` — the direct-strategy
  `getStats` (mock/fallback pattern against `/api/stats`).
* The fetch-lifecycle hook (`useApi`) whose source file is not present in
  the repository snapshot; it is modelled from the specification.

JavaScript conventions mirrored here: `null`/`undefined` become `Option`,
string truthiness (`if (s)`) is "present and non-empty", asynchronous
results that the code awaits become explicit outcome values passed as
arguments, and console logging is dropped (it does not affect any result).
-/

/-- HTTP verbs accepted by the request wrapper. -/
inductive HttpMethod where
  | GET | POST | PUT | PATCH | DELETE
deriving DecidableEq

/-- An axios success response as observed by the interceptors and
`apiRequest`: `status`, `statusText` and the parsed `data` payload. -/
structure AxiosResponse (β : Type) where
  status : Nat
  statusText : String
  data : β
deriving DecidableEq

/-- The `config` object attached to an axios error; only its `url` field is
read (`error.config?.url`). -/
structure AxiosConfig where
  url : Option String
deriving DecidableEq

/-- An axios rejection as it reaches the response interceptor: a message,
an optional error `code` (`'ECONNABORTED'` for client-side deadline
aborts), the server response when one was received, and the request
config. `ρ` is the type of a response body. -/
structure AxiosError (ρ : Type) where
  message : String
  code : Option String
  response : Option (AxiosResponse ρ)
  config : Option AxiosConfig
deriving DecidableEq

/-- The normalized error shape built by the response interceptor in
`src/frontend/src/services/api.js` (`enhancedError`). -/
structure NormalizedError (ρ : Type) where
  message : String
  status : Option Nat
  statusText : Option String
  data : Option ρ
  isNetworkError : Bool
  isTimeout : Bool
  url : Option String
deriving DecidableEq

/-- The response interceptor's error handler: builds the enhanced error
object field for field as in `api.js` lines 62–70:
`message`, `status: error.response?.status`,
`statusText: error.response?.statusText`, `data: error.response?.data`,
`isNetworkError: !error.response`,
`isTimeout: error.code === 'ECONNABORTED'`, `url: error.config?.url`. -/
def enhancedError (e : AxiosError ρ) : NormalizedError ρ :=
  { message := e.message
    status := e.response.map AxiosResponse.status
    statusText := e.response.map AxiosResponse.statusText
    data := e.response.map AxiosResponse.data
    isNetworkError := e.response.isNone
    isTimeout := e.code == some "ECONNABORTED"
    url := e.config.bind AxiosConfig.url }

/-- The universal result envelope `{ data, error }` returned by the request
wrapper and every data-service method. `null` fields are `none`. -/
structure ResultEnvelope (V E : Type) where
  data : Option V
  error : Option E
deriving DecidableEq

/-- The request wrapper `apiRequest(method, url, data, options)` of
`api.js` lines 79–91. The awaited transport outcome is passed explicitly:
`Except.ok` carries the axios response (whose `data` payload may itself be
JSON `null`, hence `Option V`), `Except.error` carries the normalized
error produced by the interceptor. On success it returns
`{ data: response.data, error: null }`; on failure `{ data: null, error }`.
The method and url only route the underlying transport call; the request
body and options are likewise absorbed into the outcome argument. -/
def apiRequest (m : HttpMethod) (u : String)
    (outcome : Except (NormalizedError ρ) (AxiosResponse (Option V))) :
    ResultEnvelope V (NormalizedError ρ) :=
  match m, u, outcome with
  | _, _, .ok response => { data := response.data, error := none }
  | _, _, .error e => { data := none, error := some e }

namespace api

/-- `api.get` convenience helper (`api.js` line 97). -/
def get (u : String) (o : Except (NormalizedError ρ) (AxiosResponse (Option V))) :
    ResultEnvelope V (NormalizedError ρ) :=
  apiRequest HttpMethod.GET u o

/-- `api.post` convenience helper (`api.js` line 98). -/
def post (u : String) (o : Except (NormalizedError ρ) (AxiosResponse (Option V))) :
    ResultEnvelope V (NormalizedError ρ) :=
  apiRequest HttpMethod.POST u o

/-- `api.put` convenience helper (`api.js` line 99). -/
def put (u : String) (o : Except (NormalizedError ρ) (AxiosResponse (Option V))) :
    ResultEnvelope V (NormalizedError ρ) :=
  apiRequest HttpMethod.PUT u o

/-- `api.patch` convenience helper (`api.js` line 100). -/
def patch (u : String) (o : Except (NormalizedError ρ) (AxiosResponse (Option V))) :
    ResultEnvelope V (NormalizedError ρ) :=
  apiRequest HttpMethod.PATCH u o

/-- `api.delete` convenience helper (`api.js` line 101). -/
def delete (u : String) (o : Except (NormalizedError ρ) (AxiosResponse (Option V))) :
    ResultEnvelope V (NormalizedError ρ) :=
  apiRequest HttpMethod.DELETE u o

end api

/-- A database-table descriptor fixture record (`mockData.tables`). -/
structure TableRec where
  name : String
  source : String
  purpose : String
  recordCount : Nat
  lastUpdated : String
deriving DecidableEq

/-- An export-file descriptor fixture record (`mockData.exports`). -/
structure ExportRec where
  name : String
  path : String
  description : String
  size : String
  rows : Nat
  createdAt : String
deriving DecidableEq

/-- A notebook descriptor fixture record (`mockData.notebooks`). -/
structure NotebookRec where
  name : String
  path : String
  description : String
  lastRun : String
  status : String
deriving DecidableEq

/-- A script descriptor fixture record (`mockData.scripts`). -/
structure ScriptRec where
  name : String
  path : String
  description : String
  lines : Nat
deriving DecidableEq

/-- The dashboard statistics shape: fixture `mockData.stats` and the stats
computed by the derived strategy both inhabit it; graph metrics are
nullable. -/
structure StatsRec where
  totalBusinesses : Nat
  totalBlockGroups : Nat
  totalCities : Nat
  totalZipcodes : Nat
  graphNodes : Option Nat
  graphRelationships : Option Nat
  lastUpdated : String
deriving DecidableEq

namespace mockData

/-- `mockData.tables` from `src/unnamed/part_004` lines 8–44. -/
def tables : List TableRec :=
  [ { name := "block_group", source := "data/block_group.json",
      purpose := "Census block group geometry and demographics",
      recordCount := 1523, lastUpdated := "2024-01-15" },
    { name := "business_location", source := "data/business_location.json",
      purpose := "Geocoded business locations with attributes",
      recordCount := 45289, lastUpdated := "2024-01-14" },
    { name := "city", source := "data/city.json",
      purpose := "City boundaries and metadata",
      recordCount := 342, lastUpdated := "2024-01-10" },
    { name := "zipcode", source := "data/zipcode.json",
      purpose := "Zipcode polygons for aggregation and filtering",
      recordCount := 1876, lastUpdated := "2024-01-12" },
    { name := "zone_location", source := "data/zone_location.json",
      purpose := "Zoning-based scoring locations and candidate sites",
      recordCount := 8934, lastUpdated := "2024-01-16" } ]

/-- `mockData.exports` from `src/unnamed/part_004` lines 47–72. -/
def exports : List ExportRec :=
  [ { name := "blockgroups.csv", path := "exports/blockgroups.csv",
      description := "Scored block groups for candidate regions",
      size := "2.3 MB", rows := 15234, createdAt := "2024-01-15T10:30:00Z" },
    { name := "locations.csv", path := "exports/locations.csv",
      description := "Store and candidate locations with features",
      size := "8.7 MB", rows := 45289, createdAt := "2024-01-14T14:20:00Z" },
    { name := "businesses.csv", path := "exports/businesses.csv",
      description := "Business-level attributes for graph ingestion",
      size := "12.1 MB", rows := 67123, createdAt := "2024-01-16T09:15:00Z" } ]

/-- `mockData.notebooks` from `src/unnamed/part_004` lines 75–104. -/
def notebooks : List NotebookRec :=
  [ { name := "city_attributes.ipynb", path := "notebooks/city_attributes.ipynb",
      description := "City-level attributes and enrichment",
      lastRun := "2024-01-14T16:45:00Z", status := "success" },
    { name := "neo4j_analytics.ipynb", path := "notebooks/neo4j_analytics.ipynb",
      description := "Graph analytics over the Neo4j model",
      lastRun := "2024-01-15T11:20:00Z", status := "success" },
    { name := "neo4j_visualization.ipynb", path := "notebooks/neo4j_visualization.ipynb",
      description := "Visual exploration of the graph",
      lastRun := "2024-01-15T13:30:00Z", status := "success" },
    { name := "neo4j_llm.ipynb", path := "notebooks/neo4j_llm.ipynb",
      description := "LLM-assisted categorization and enrichment",
      lastRun := "2024-01-16T10:00:00Z", status := "running" } ]

/-- `mockData.scripts` from `src/unnamed/part_004` lines 107–138. -/
def scripts : List ScriptRec :=
  [ { name := "analysis_block_group_tables.sql",
      path := "scripts/analysis_block_group_tables.sql",
      description := "Analysis helpers over block group tables", lines := 342 },
    { name := "analysis_esri_tables.sql",
      path := "scripts/analysis_esri_tables.sql",
      description := "ESRI enrichment and QA queries", lines := 278 },
    { name := "create_postgres_tables.sql",
      path := "scripts/create_postgres_tables.sql",
      description := "Core relational schema for the pipeline", lines := 456 },
    { name := "etl_entity_tables.sql",
      path := "scripts/etl_entity_tables.sql",
      description := "Entity ETL into the warehouse", lines := 523 },
    { name := "etl_entity_relationships.sql",
      path := "scripts/etl_entity_relationships.sql",
      description := "Relationship ETL supporting the knowledge graph", lines := 612 } ]

/-- `mockData.stats` from `src/unnamed/part_004` lines 141–149. -/
def stats : StatsRec :=
  { totalBusinesses := 67123, totalBlockGroups := 1523, totalCities := 342,
    totalZipcodes := 1876, graphNodes := some 125847,
    graphRelationships := some 342156, lastUpdated := "2024-01-16T12:00:00Z" }

end mockData

namespace mockApi

/-- `mockApi.getTables`: awaits the simulated delay, then resolves with
`mockData.tables`; the delay has no effect on the value. -/
def getTables : List TableRec := mockData.tables

/-- `mockApi.getExports`. -/
def getExports : List ExportRec := mockData.exports

/-- `mockApi.getNotebooks`. -/
def getNotebooks : List NotebookRec := mockData.notebooks

/-- `mockApi.getScripts`. -/
def getScripts : List ScriptRec := mockData.scripts

/-- `mockApi.getStats`. -/
def getStats : StatsRec := mockData.stats

end mockApi

/-- One record of the bulk entity export
`/data/ca_businesses_standardized.json` as read by the derived-statistics
strategy; only `zip_code`, `blockgroup` and `city` are consulted. `none`
stands for an absent (or `null`) field, `some ""` for a present but empty
string — which JavaScript treats as falsy. -/
structure BizRec where
  zip_code : Option String
  blockgroup : Option String
  city : Option String
deriving DecidableEq

/-- JavaScript `Set.prototype.add` on a set represented as its list of
elements in insertion order: a value already present leaves the set
unchanged, a new value is appended. -/
def addSet (s : List String) (v : String) : List String :=
  if v ∈ s then s else s ++ [v]

/-- One guarded insertion `if (rec.field) set.add(rec.field)`: an absent
field or an empty string is falsy and skipped. -/
def addIfTruthy (s : List String) (v : Option String) : List String :=
  match v with
  | some str => if str = "" then s else addSet s str
  | none => s

/-- The accumulator of the `for (const rec of records)` loop in the
derived `getStats` (`src/unnamed/part_003` lines 107–117): a running
total and the three distinct-value sets. -/
structure StatsAcc where
  totalBusinesses : Nat
  zips : List String
  blockgroups : List String
  cities : List String
deriving DecidableEq

/-- One iteration of the reduction loop: count the record and add each
truthy field value to its set. -/
def statsStep (acc : StatsAcc) (rec : BizRec) : StatsAcc :=
  { totalBusinesses := acc.totalBusinesses + 1
    zips := addIfTruthy acc.zips rec.zip_code
    blockgroups := addIfTruthy acc.blockgroups rec.blockgroup
    cities := addIfTruthy acc.cities rec.city }

/-- The statistics object assembled by the derived strategy from a bulk
array of records (`src/unnamed/part_003` lines 107–128): set sizes are
list lengths, graph metrics are `null`, `lastUpdated` is the current
time, passed in as `now`. -/
def computeStats (now : String) (records : List BizRec) : StatsRec :=
  let acc := records.foldl statsStep ⟨0, [], [], []⟩
  { totalBusinesses := acc.totalBusinesses
    totalBlockGroups := acc.blockgroups.length
    totalCities := acc.cities.length
    totalZipcodes := acc.zips.length
    graphNodes := none
    graphRelationships := none
    lastUpdated := now }

/-- `response.ok` of the Fetch API: status in the 2xx range. -/
def respOk (s : Nat) : Bool := 200 ≤ s && s ≤ 299

/-- The parsed body of the bulk statistics fetch: either a JSON array of
records, or some non-array value (iterating it with `for..of` throws). -/
inductive StatsBody where
  | records (rs : List BizRec)
  | nonIterable
deriving DecidableEq

deriving instance DecidableEq for Except

/-- Outcome of `fetch('/data/ca_businesses_standardized.json')` as awaited
by the derived `getStats`: the promise rejects (network failure), or a
response arrives with a status and a body whose JSON parse may fail. -/
inductive StatsFetch where
  | reject (msg : String)
  | resp (status : Nat) (body : Except String StatsBody)
deriving DecidableEq

/-- A summarised territory as consumed by `getTerritoryMetrics`; only
`business_count` steers the sort, `territory_id` identifies the record.
An absent count is `none`; `(t.business_count || 0)` maps it to 0. -/
structure Territory where
  territory_id : String
  business_count : Option Int
deriving DecidableEq

/-- The sort key `(t.business_count || 0)` used by the comparator in
`src/unnamed/part_003` line 151. -/
def sortKey (t : Territory) : Int := t.business_count.getD 0

/-- Stable descending insertion: `t` is placed before the first element
whose key is strictly smaller, and after every earlier element with an
equal or larger key. -/
def insertDesc (t : Territory) : List Territory → List Territory
  | [] => [t]
  | h :: rest =>
    if sortKey h ≤ sortKey t then t :: h :: rest else h :: insertDesc t rest

/-- `territories.sort((a, b) => (b.business_count || 0) - (a.business_count || 0))`:
ECMAScript `Array.prototype.sort` is specified to be stable, and a stable
sort under a fixed total preorder has a unique result, so it is embedded
as a stable descending insertion sort over the key `(business_count || 0)`. -/
def sortTerritories (l : List Territory) : List Territory :=
  l.foldr insertDesc []

/-- JavaScript `v || d` for a string-or-absent value `v`: the default `d`
is taken when `v` is absent, `null` or the (falsy) empty string. -/
def jsStrOr (v : Option String) (d : String) : String :=
  match v with
  | some s => if s = "" then d else s
  | none => d

/-- JavaScript `v || null` for an object-or-absent value: an object is
always truthy, so the value passes through and absent becomes `null`. -/
def jsObjOr (v : Option σ) : Option σ :=
  match v with
  | some s => some s
  | none => none

/-- The `territories` field of the territory-aggregate payload as seen by
`Array.isArray`: an actual array, or any non-array value. -/
inductive TerritoriesField where
  | arr (l : List Territory)
  | nonArray
deriving DecidableEq

/-- The parsed territory-aggregate payload
`{ group_by, summary, territories }`; `σ` is the type of the opaque
`summary` object. -/
structure TerritoryPayload (σ : Type) where
  group_by : Option String
  summary : Option σ
  territories : TerritoriesField
deriving DecidableEq

/-- Outcome of `fetch('/data/ca_businesses_standardized_by_zip_code.json')`:
rejection, or a response with a status and a JSON parse result. -/
inductive TerrFetch (σ : Type) where
  | reject (msg : String)
  | resp (status : Nat) (body : Except String (TerritoryPayload σ))
deriving DecidableEq

/-- The error value landing in the `catch` of `getTerritoryMetrics`:
the fetch rejection, the error thrown on a non-2xx status, or the
rejection of `response.json()`. -/
inductive TerritoryError where
  | rejected (msg : String)
  | thrown (msg : String)
  | parseFailed (msg : String)
deriving DecidableEq

/-- The success payload `{ groupBy, summary, territories }` returned by
`getTerritoryMetrics`. -/
structure TerritoryData (σ : Type) where
  groupBy : String
  summary : Option σ
  territories : List Territory
deriving DecidableEq

namespace dataService

/-- `dataService.getTables` (`src/unnamed/part_003` lines 19–34). `mock`
is the module-level `useMock` flag; `net` is the awaited result of
`api.get('/api/tables')`, only consulted on the non-mock path. Returns
the envelope paired with whether the network call was made. -/
def getTables (mock : Bool) (net : ResultEnvelope (List TableRec) ε) :
    ResultEnvelope (List TableRec) ε × Bool :=
  if mock then ({ data := some mockApi.getTables, error := none }, false)
  else if net.error.isSome then
    ({ data := some mockApi.getTables, error := none }, true)
  else (net, true)

/-- `dataService.getExports` (`src/unnamed/part_003` lines 39–53). -/
def getExports (mock : Bool) (net : ResultEnvelope (List ExportRec) ε) :
    ResultEnvelope (List ExportRec) ε × Bool :=
  if mock then ({ data := some mockApi.getExports, error := none }, false)
  else if net.error.isSome then
    ({ data := some mockApi.getExports, error := none }, true)
  else (net, true)

/-- `dataService.getNotebooks` (`src/unnamed/part_003` lines 58–72). -/
def getNotebooks (mock : Bool) (net : ResultEnvelope (List NotebookRec) ε) :
    ResultEnvelope (List NotebookRec) ε × Bool :=
  if mock then ({ data := some mockApi.getNotebooks, error := none }, false)
  else if net.error.isSome then
    ({ data := some mockApi.getNotebooks, error := none }, true)
  else (net, true)

/-- `dataService.getScripts` (`src/unnamed/part_003` lines 77–91). -/
def getScripts (mock : Bool) (net : ResultEnvelope (List ScriptRec) ε) :
    ResultEnvelope (List ScriptRec) ε × Bool :=
  if mock then ({ data := some mockApi.getScripts, error := none }, false)
  else if net.error.isSome then
    ({ data := some mockApi.getScripts, error := none }, true)
  else (net, true)

/-- The derived-strategy `dataService.getStats`
(`src/unnamed/part_003` lines 96–135). It fetches the bulk export
unconditionally — the mock flag is accepted but never read — and every
failure path (rejection, non-2xx, parse failure, non-iterable body) falls
back to `mockApi.getStats` with a `null` error. The second component
records that the fetch was attempted. -/
def getStats (mock : Bool) (now : String) (f : StatsFetch) :
    ResultEnvelope StatsRec ε × Bool :=
  match mock, f with
  | _, .resp s body =>
    if respOk s then
      match body with
      | .ok (.records rs) => ({ data := some (computeStats now rs), error := none }, true)
      | .ok .nonIterable => ({ data := some mockApi.getStats, error := none }, true)
      | .error _ => ({ data := some mockApi.getStats, error := none }, true)
    else ({ data := some mockApi.getStats, error := none }, true)
  | _, .reject _ => ({ data := some mockApi.getStats, error := none }, true)

/-- `dataService.getTerritoryMetrics` (`src/unnamed/part_003` lines
141–164): non-2xx throws `Failed to load territory metrics: <status>`;
a parse failure propagates; on success the territories array is copied
(`[...payload.territories]`, or `[]` when not an array), the copy is
stable-sorted descending by `business_count || 0`, and the payload fields
are defaulted with `group_by || 'zip_code'` and `summary || null`. Every
caught error is returned as `{ data: null, error }`. -/
def getTerritoryMetrics (f : TerrFetch σ) :
    ResultEnvelope (TerritoryData σ) TerritoryError :=
  match f with
  | .reject m => { data := none, error := some (.rejected m) }
  | .resp s body =>
    if respOk s then
      match body with
      | .error m => { data := none, error := some (.parseFailed m) }
      | .ok p =>
        let copy := match p.territories with
          | .arr l => l
          | .nonArray => []
        { data := some
            { groupBy := jsStrOr p.group_by "zip_code"
              summary := jsObjOr p.summary
              territories := sortTerritories copy }
          error := none }
    else
      { data := none
        error := some (.thrown ("Failed to load territory metrics: " ++ toString s)) }

/-- The territory-aggregate payload as it stands after a call to
`getTerritoryMetrics`: the only array the code sorts is the spread copy
`[...payload.territories]`, so the fetched payload itself is untouched. -/
def territoryPayloadAfterCall (f : TerrFetch σ) : TerrFetch σ := f

end dataService

namespace dataServiceDirect

/-- The direct-strategy `getStats` of
`src/frontend/src/services/dataService.js` lines 96–110: the same
mock-short-circuit and fixture-fallback pattern as the list resources,
against `/api/stats`. -/
def getStats (mock : Bool) (net : ResultEnvelope StatsRec ε) :
    ResultEnvelope StatsRec ε × Bool :=
  if mock then ({ data := some mockApi.getStats, error := none }, false)
  else if net.error.isSome then
    ({ data := some mockApi.getStats, error := none }, true)
  else (net, true)

end dataServiceDirect

/-- Modelled from the spec: the Fetch Lifecycle Hook
(`src/frontend/src/hooks/useApi.js`) is referenced by `App.jsx` and the
frontend README but its source file is absent from the snapshot; its
state is modelled from spec sections 4.4 and 5: `{ data, loading, error }`
plus the internal generation counter used to discard superseded results. -/
structure HookState (δ ε : Type) where
  data : Option δ
  error : Option ε
  loading : Bool
  generation : Nat
deriving DecidableEq

/-- Modelled from the spec: the two events a hook instance processes on
the single-threaded event loop — a call starting (mount, dependency
change or `refetch`), and a producer resolving with the envelope it
captured for generation `g`. -/
inductive HookEvent (δ ε : Type) where
  | start
  | resolve (g : Nat) (r : ResultEnvelope δ ε)
deriving DecidableEq

/-- Modelled from the spec: one hook transition. Entering `loading`
clears the previous error, sets `loading = true` and increments the
generation (the started call captures the new value). A resolution for
generation `g` is adopted only when the current generation still equals
`g`; otherwise it is discarded silently. -/
def hookStep (s : HookState δ ε) : HookEvent δ ε → HookState δ ε
  | .start =>
    { s with error := none, loading := true, generation := s.generation + 1 }
  | .resolve g r =>
    if s.generation = g then
      { data := r.data, error := r.error, loading := false,
        generation := s.generation }
    else s

/-- Modelled from the spec: the state of a freshly mounted hook instance
before any call starts. -/
def hookInit : HookState δ ε := ⟨none, none, false, 0⟩

/-- Modelled from the spec: run a hook instance over a sequence of
events from the initial state. -/
def runHook (evs : List (HookEvent δ ε)) : HookState δ ε :=
  evs.foldl hookStep hookInit

/-- The value of a record field once JavaScript truthiness is applied:
an absent field or an empty string yields nothing. -/
def truthyVal (v : Option String) : Option String :=
  match v with
  | some s => if s = "" then none else some s
  | none => none

/-- The truthy values a given field takes across a list of records, in
record order — exactly the values the reduction loop feeds to its set. -/
def truthyVals (f : BizRec → Option String) (rs : List BizRec) : List String :=
  rs.filterMap (fun r => truthyVal (f r))

/-- The field values present across a list of records, in record order,
with no truthiness filter — the reading of "distinct values present"
under which the specification's derived-statistics sentence is tested. -/
def presentVals (f : BizRec → Option String) (rs : List BizRec) : List String :=
  rs.filterMap f


theorem insertDesc_perm (t : Territory) (l : List Territory) :
    List.Perm (insertDesc t l) (t :: l) := by
  induction l with
  | nil => exact List.Perm.refl _
  | cons h₀ rest ih =>
    rw [insertDesc]
    split
    · exact List.Perm.refl _
    · exact (ih.cons h₀).trans (List.Perm.swap t h₀ rest)

theorem sortTerritories_perm (l : List Territory) :
    List.Perm (sortTerritories l) l := by
  induction l with
  | nil => exact List.Perm.refl _
  | cons x xs ih =>
    simp only [sortTerritories, List.foldr_cons]
    exact (insertDesc_perm x _).trans (ih.cons x)

theorem insertDesc_pairwise (t : Territory) (l : List Territory)
    (h : l.Pairwise (fun a b => sortKey b ≤ sortKey a)) :
    (insertDesc t l).Pairwise (fun a b => sortKey b ≤ sortKey a) := by
  induction l with
  | nil => simp [insertDesc]
  | cons h₀ rest ih =>
    rcases List.pairwise_cons.mp h with ⟨hhead, htail⟩
    rw [insertDesc]
    split
    case isTrue hle =>
      refine List.pairwise_cons.mpr ⟨?_, h⟩
      intro b hb
      rcases List.mem_cons.mp hb with hbt | hbr
      · exact hbt ▸ hle
      · exact le_trans (hhead b hbr) hle
    case isFalse hgt =>
      refine List.pairwise_cons.mpr ⟨?_, ih htail⟩
      intro b hb
      rcases List.mem_cons.mp ((insertDesc_perm t rest).mem_iff.mp hb) with hbt | hbr
      · exact hbt ▸ le_of_lt (not_le.mp hgt)
      · exact hhead b hbr

theorem sortTerritories_pairwise (l : List Territory) :
    (sortTerritories l).Pairwise (fun a b => sortKey b ≤ sortKey a) := by
  induction l with
  | nil => simp [sortTerritories]
  | cons x xs ih =>
    simp only [sortTerritories, List.foldr_cons] at ih ⊢
    exact insertDesc_pairwise x _ ih

theorem insertDesc_filter (t : Territory) (l : List Territory) (k : Int) :
    (insertDesc t l).filter (fun x => sortKey x == k) =
      if sortKey t = k then t :: l.filter (fun x => sortKey x == k)
      else l.filter (fun x => sortKey x == k) := by
  induction l with
  | nil =>
    by_cases ht : sortKey t = k <;>
      simp [insertDesc, List.filter_cons, beq_iff_eq, ht]
  | cons h₀ rest ih =>
    rw [insertDesc]
    split
    case isTrue hle =>
      by_cases ht : sortKey t = k <;>
        simp [List.filter_cons, beq_iff_eq, ht]
    case isFalse hgt =>
      rw [List.filter_cons, ih]
      by_cases ht : sortKey t = k
      · by_cases hh : sortKey h₀ = k
        · exact absurd (le_of_eq (hh.trans ht.symm)) hgt
        · simp [List.filter_cons, beq_iff_eq, ht, hh]
      · by_cases hh : sortKey h₀ = k <;>
          simp [List.filter_cons, beq_iff_eq, ht, hh]

theorem sortTerritories_filter (l : List Territory) (k : Int) :
    (sortTerritories l).filter (fun x => sortKey x == k) =
      l.filter (fun x => sortKey x == k) := by
  induction l with
  | nil => rfl
  | cons x xs ih =>
    simp only [sortTerritories, List.foldr_cons] at ih ⊢
    rw [insertDesc_filter, ih]
    by_cases ht : sortKey x = k <;>
      simp [List.filter_cons, beq_iff_eq, ht]

theorem addIfTruthy_eq_truthyVal (s : List String) (v : Option String) :
    addIfTruthy s v =
      match truthyVal v with
      | some str => addSet s str
      | none => s := by
  cases v with
  | none => rfl
  | some str => by_cases h : str = "" <;> simp [addIfTruthy, truthyVal, h]

theorem foldl_statsStep_total (rs : List BizRec) :
    ∀ a : StatsAcc,
      (rs.foldl statsStep a).totalBusinesses = a.totalBusinesses + rs.length := by
  induction rs with
  | nil => intro a; simp
  | cons r rs ih =>
    intro a
    simp only [List.foldl_cons, List.length_cons, ih, statsStep]
    omega

theorem foldl_statsStep_set (f : BizRec → Option String)
    (proj : StatsAcc → List String)
    (hp : ∀ a r, proj (statsStep a r) = addIfTruthy (proj a) (f r))
    (rs : List BizRec) :
    ∀ a : StatsAcc,
      proj (rs.foldl statsStep a) = (truthyVals f rs).foldl addSet (proj a) := by
  induction rs with
  | nil => intro a; simp [truthyVals]
  | cons r rs ih =>
    intro a
    simp only [List.foldl_cons, ih, hp, truthyVals, List.filterMap_cons]
    rw [addIfTruthy_eq_truthyVal]
    cases truthyVal (f r) <;> simp [truthyVals]

theorem addSet_nodup (s : List String) (v : String) (h : s.Nodup) :
    (addSet s v).Nodup := by
  unfold addSet
  split
  case isTrue => exact h
  case isFalse hv => simp [List.nodup_append, h, hv]

theorem foldl_addSet_nodup (vs : List String) :
    ∀ s : List String, s.Nodup → (vs.foldl addSet s).Nodup := by
  induction vs with
  | nil => intro s h; exact h
  | cons v vs ih =>
    intro s h
    exact ih (addSet s v) (addSet_nodup s v h)

theorem addSet_toFinset (s : List String) (v : String) :
    (addSet s v).toFinset = insert v s.toFinset := by
  unfold addSet
  split
  case isTrue hv => exact (Finset.insert_eq_self.mpr (List.mem_toFinset.mpr hv)).symm
  case isFalse hv =>
    rw [List.toFinset_append]
    simp only [List.toFinset_cons, List.toFinset_nil, insert_emptyc_eq]
    rw [Finset.union_comm, ← Finset.insert_eq]

theorem foldl_addSet_toFinset (vs : List String) :
    ∀ s : List String, (vs.foldl addSet s).toFinset = s.toFinset ∪ vs.toFinset := by
  induction vs with
  | nil => intro s; simp
  | cons v vs ih =>
    intro s
    simp only [List.foldl_cons]
    rw [ih, addSet_toFinset, List.toFinset_cons, Finset.insert_union,
      Finset.union_insert]

theorem foldl_addSet_length (vs : List String) :
    (vs.foldl addSet []).length = vs.dedup.length := by
  have hn : (vs.foldl addSet []).Nodup := foldl_addSet_nodup vs [] List.nodup_nil
  rw [← List.toFinset_card_of_nodup hn, foldl_addSet_toFinset]
  simp [List.card_toFinset]

theorem computeStats_totalBusinesses (now : String) (records : List BizRec) :
    (computeStats now records).totalBusinesses = records.length := by
  simp [computeStats, foldl_statsStep_total]

theorem computeStats_totalZipcodes (now : String) (records : List BizRec) :
    (computeStats now records).totalZipcodes =
      (truthyVals BizRec.zip_code records).dedup.length := by
  have h := foldl_statsStep_set BizRec.zip_code StatsAcc.zips
    (fun _ _ => rfl) records ⟨0, [], [], []⟩
  simp only [computeStats, h]
  exact foldl_addSet_length _

theorem computeStats_totalBlockGroups (now : String) (records : List BizRec) :
    (computeStats now records).totalBlockGroups =
      (truthyVals BizRec.blockgroup records).dedup.length := by
  have h := foldl_statsStep_set BizRec.blockgroup StatsAcc.blockgroups
    (fun _ _ => rfl) records ⟨0, [], [], []⟩
  simp only [computeStats, h]
  exact foldl_addSet_length _

theorem computeStats_totalCities (now : String) (records : List BizRec) :
    (computeStats now records).totalCities =
      (truthyVals BizRec.city records).dedup.length := by
  have h := foldl_statsStep_set BizRec.city StatsAcc.cities
    (fun _ _ => rfl) records ⟨0, [], [], []⟩
  simp only [computeStats, h]
  exact foldl_addSet_length _

/-- C1 (amended): for every request-wrapper call (`apiRequest` and each
verb helper), the envelope never has both fields non-null; on transport
failure `data` is null and `error` is the normalized error, and on
transport success `error` is null and `data` is the response payload — so
exactly one field is non-null for every failure and for every success
whose payload is non-null. (A success whose payload is JSON `null` yields
both fields null, so the exclusivity does not extend to null payloads.)
Each verb helper produces exactly the `apiRequest` envelope. -/
theorem apiRequest_envelope_cases {V ρ : Type} (m : HttpMethod) (u : String)
    (e : NormalizedError ρ) (resp : AxiosResponse (Option V))
    (st : Nat) (sx : String) (v : V)
    (r : Except (NormalizedError ρ) (AxiosResponse (Option V))) :
    apiRequest m u (Except.error e
        : Except (NormalizedError ρ) (AxiosResponse (Option V))) = ⟨none, some e⟩
    ∧ apiRequest m u (Except.ok resp
        : Except (NormalizedError ρ) (AxiosResponse (Option V))) = ⟨resp.data, none⟩
    ∧ apiRequest m u (Except.ok ⟨st, sx, some v⟩
        : Except (NormalizedError ρ) (AxiosResponse (Option V))) = ⟨some v, none⟩
    ∧ ((apiRequest m u r).data.isSome && (apiRequest m u r).error.isSome) = false
    ∧ api.get u r = apiRequest HttpMethod.GET u r
    ∧ api.post u r = apiRequest HttpMethod.POST u r
    ∧ api.put u r = apiRequest HttpMethod.PUT u r
    ∧ api.patch u r = apiRequest HttpMethod.PATCH u r
    ∧ api.delete u r = apiRequest HttpMethod.DELETE u r := by
  refine ⟨rfl, rfl, rfl, ?_, rfl, rfl, rfl, rfl, rfl⟩
  cases r <;> simp [apiRequest]

/-- C1 counterexample: a transport success whose payload is JSON `null`
(`response.data === null`, e.g. a 200 response with body `null`) makes
`apiRequest` return `{ data: null, error: null }` — both fields null,
refuting "never both null ... including one whose payload is null". -/
theorem apiRequest_null_payload_both_null :
    apiRequest HttpMethod.GET "/api/tables"
        (Except.ok ⟨200, "OK", none⟩
          : Except (NormalizedError Nat) (AxiosResponse (Option Nat))) =
      ⟨none, none⟩ := rfl

/-- C2 (amended): every normalized error built by the response
interceptor keeps `isNetworkError` and a defined `status` mutually
exclusive (both are derived from the presence of `error.response`), and a
request that exceeds the configured timeout with no response (axios code
`ECONNABORTED`, no `response`) yields `isTimeout = true` and
`status = undefined` — but `isNetworkError = true`, not `false`: the code
marks every no-response failure as a network error, timeouts included. -/
theorem enhancedError_classification {ρ : Type} (e : AxiosError ρ)
    (msg : String) (c : Option AxiosConfig) :
    ((enhancedError e).isNetworkError && (enhancedError e).status.isSome) = false
    ∧ enhancedError (⟨msg, some "ECONNABORTED", none, c⟩ : AxiosError ρ) =
        ⟨msg, none, none, none, true, true, c.bind AxiosConfig.url⟩ := by
  constructor
  · cases e with
    | mk m code response cfg => cases response <;> simp [enhancedError]
  · simp [enhancedError]

/-- C2 counterexample: the concrete timeout rejection (code
`ECONNABORTED`, no response received) is normalized with
`isNetworkError = true`, while the claim demands `isNetworkError = false`
for a timeout. -/
theorem enhancedError_timeout_counterexample :
    (enhancedError (⟨"timeout of 30000ms exceeded", some "ECONNABORTED", none,
          some ⟨some "/api/tables"⟩⟩ : AxiosError Nat)) =
        ⟨"timeout of 30000ms exceeded", none, none, none, true, true,
          some "/api/tables"⟩
    ∧ (enhancedError (⟨"timeout of 30000ms exceeded", some "ECONNABORTED", none,
          some ⟨some "/api/tables"⟩⟩ : AxiosError Nat)).isNetworkError ≠ false := by
  refine ⟨by decide, by decide⟩

/-- C3: with mock mode disabled, whenever the request-wrapper envelope
carries a non-null error, each list-resource method swallows it and
returns the corresponding fixture list with a null error — the very same
payload mock mode returns — so no transport error reaches the caller. -/
theorem listResources_fallback_to_fixtures {ε : Type}
    (dT : Option (List TableRec)) (dE : Option (List ExportRec))
    (dN : Option (List NotebookRec)) (dS : Option (List ScriptRec))
    (e₁ e₂ e₃ e₄ : ε)
    (nT : ResultEnvelope (List TableRec) ε)
    (nE : ResultEnvelope (List ExportRec) ε)
    (nN : ResultEnvelope (List NotebookRec) ε)
    (nS : ResultEnvelope (List ScriptRec) ε) :
    dataService.getTables false ⟨dT, some e₁⟩ =
      ({ data := some mockData.tables, error := none }, true)
    ∧ (dataService.getTables false ⟨dT, some e₁⟩).1 =
        (dataService.getTables true nT).1
    ∧ dataService.getExports false ⟨dE, some e₂⟩ =
        ({ data := some mockData.exports, error := none }, true)
    ∧ (dataService.getExports false ⟨dE, some e₂⟩).1 =
        (dataService.getExports true nE).1
    ∧ dataService.getNotebooks false ⟨dN, some e₃⟩ =
        ({ data := some mockData.notebooks, error := none }, true)
    ∧ (dataService.getNotebooks false ⟨dN, some e₃⟩).1 =
        (dataService.getNotebooks true nN).1
    ∧ dataService.getScripts false ⟨dS, some e₄⟩ =
        ({ data := some mockData.scripts, error := none }, true)
    ∧ (dataService.getScripts false ⟨dS, some e₄⟩).1 =
        (dataService.getScripts true nS).1 :=
  ⟨rfl, rfl, rfl, rfl, rfl, rfl, rfl, rfl⟩

/-- C7: with mock mode enabled, each list resource and the
direct-strategy statistics method return the corresponding fixture in a
`{ data: fixture, error: null }` envelope without attempting a network
call (the second component, recording whether the request wrapper was
invoked, is `false`), whatever the network would have answered. -/
theorem mock_mode_short_circuit {ε : Type}
    (nT : ResultEnvelope (List TableRec) ε)
    (nE : ResultEnvelope (List ExportRec) ε)
    (nN : ResultEnvelope (List NotebookRec) ε)
    (nS : ResultEnvelope (List ScriptRec) ε)
    (nP : ResultEnvelope StatsRec ε) :
    dataService.getTables true nT =
      ({ data := some mockData.tables, error := none }, false)
    ∧ dataService.getExports true nE =
        ({ data := some mockData.exports, error := none }, false)
    ∧ dataService.getNotebooks true nN =
        ({ data := some mockData.notebooks, error := none }, false)
    ∧ dataService.getScripts true nS =
        ({ data := some mockData.scripts, error := none }, false)
    ∧ dataServiceDirect.getStats true nP =
        ({ data := some mockData.stats, error := none }, false) :=
  ⟨rfl, rfl, rfl, rfl, rfl⟩

/-- C4: `getTerritoryMetrics` sorts the fetched territories descending by
`business_count`, treating a missing count as 0, with a stable sort: the
result is a permutation of the input, pairwise descending in the key
`business_count || 0`, and for every key value the subsequence of
territories carrying it is exactly the input subsequence in its original
order. On the input counts `[5, 5, 10, 0]` the output order is
`[10, 5, 5, 0]` with the two 5-count territories keeping their relative
order. -/
theorem territory_sort_stable_desc :
    (∀ l : List Territory, List.Perm (sortTerritories l) l)
    ∧ (∀ l : List Territory,
        (sortTerritories l).Pairwise (fun a b => sortKey b ≤ sortKey a))
    ∧ (∀ (l : List Territory) (k : Int),
        (sortTerritories l).filter (fun x => sortKey x == k)
          = l.filter (fun x => sortKey x == k))
    ∧ (∀ i : String, sortKey ⟨i, none⟩ = 0)
    ∧ dataService.getTerritoryMetrics (TerrFetch.resp 200 (Except.ok
        (⟨some "zip_code", none, TerritoriesField.arr
          [⟨"t1", some 5⟩, ⟨"t2", some 5⟩, ⟨"t3", some 10⟩, ⟨"t4", some 0⟩]⟩
            : TerritoryPayload Nat))) =
        ⟨some ⟨"zip_code", none,
          [⟨"t3", some 10⟩, ⟨"t1", some 5⟩, ⟨"t2", some 5⟩,
            ⟨"t4", some 0⟩]⟩, none⟩ := by
  refine ⟨sortTerritories_perm, sortTerritories_pairwise,
    sortTerritories_filter, fun i => rfl, ?_⟩
  decide

/-- C5 (amended): in the derived statistics strategy, for every bulk
array of records `totalBusinesses` is the number of records and
`totalZipcodes` / `totalBlockGroups` / `totalCities` are the cardinalities
of the distinct truthy (present and non-empty) `zip_code` / `blockgroup` /
`city` values, with `graphNodes` and `graphRelationships` null. (A present
but empty-string value is falsy in JavaScript and is not counted.) On the
3-record input of P5 it yields `totalBusinesses = 3`, `totalZipcodes = 2`,
`totalCities = 2`, `totalBlockGroups = 0`, `graphNodes = null`. -/
theorem computeStats_counts (now : String) (records : List BizRec) :
    (computeStats now records).totalBusinesses = records.length
    ∧ (computeStats now records).totalZipcodes =
        (truthyVals BizRec.zip_code records).dedup.length
    ∧ (computeStats now records).totalBlockGroups =
        (truthyVals BizRec.blockgroup records).dedup.length
    ∧ (computeStats now records).totalCities =
        (truthyVals BizRec.city records).dedup.length
    ∧ (computeStats now records).graphNodes = none
    ∧ (computeStats now records).graphRelationships = none
    ∧ dataService.getStats (ε := Unit) false now (StatsFetch.resp 200 (Except.ok
        (StatsBody.records
          [⟨some "A", none, some "X"⟩, ⟨some "A", none, some "Y"⟩,
            ⟨some "B", none, some "X"⟩]))) =
        ({ data := some ⟨3, 0, 2, 2, none, none, now⟩, error := none }, true) :=
  ⟨computeStats_totalBusinesses now records,
    computeStats_totalZipcodes now records,
    computeStats_totalBlockGroups now records,
    computeStats_totalCities now records, rfl, rfl, rfl⟩

/-- C5 counterexample: a record whose `zip_code` is the empty string — a
present, distinct value — is skipped by the truthiness guard
`if (rec.zip_code)`, so the computed `totalZipcodes` is 0 although the
cardinality of the distinct `zip_code` values present in the input is 1,
refuting "cardinalities of the distinct ... values present" as stated. -/
theorem computeStats_empty_string_counterexample :
    (computeStats "2024-01-01T00:00:00Z"
        [⟨some "", none, none⟩]).totalZipcodes = 0
    ∧ (presentVals BizRec.zip_code [⟨some "", none, none⟩]).dedup.length = 1 := by
  exact ⟨rfl, by decide⟩

/-- C6: every failure of the territory-aggregate fetch — promise
rejection, non-2xx status, or JSON parse failure — makes
`getTerritoryMetrics` return `{ data: null, error: <non-null> }`: the
failure is surfaced and no fixture is substituted. -/
theorem getTerritoryMetrics_surfaces_errors {σ : Type}
    (m : String) (s s' : Nat)
    (body : Except String (TerritoryPayload σ)) (pm : String) :
    dataService.getTerritoryMetrics (TerrFetch.reject m : TerrFetch σ) =
      ⟨none, some (TerritoryError.rejected m)⟩
    ∧ (respOk s = false →
        dataService.getTerritoryMetrics (TerrFetch.resp s body) =
          ⟨none, some (TerritoryError.thrown
            ("Failed to load territory metrics: " ++ toString s))⟩)
    ∧ (respOk s' = true →
        dataService.getTerritoryMetrics
            (TerrFetch.resp s' (Except.error pm) : TerrFetch σ) =
          ⟨none, some (TerritoryError.parseFailed pm)⟩) := by
  refine ⟨rfl, ?_, ?_⟩
  · intro h
    simp [dataService.getTerritoryMetrics, h]
  · intro h
    simp [dataService.getTerritoryMetrics, h]

/-- C6 witness: the three failure shapes at concrete inputs — a network
rejection, an HTTP 500, and a parse failure on a 200 response. -/
theorem getTerritoryMetrics_surfaces_errors_witness :
    dataService.getTerritoryMetrics (TerrFetch.reject "network down" : TerrFetch Nat) =
      ⟨none, some (TerritoryError.rejected "network down")⟩
    ∧ dataService.getTerritoryMetrics
        (TerrFetch.resp 500 (Except.error "server error page") : TerrFetch Nat) =
        ⟨none, some (TerritoryError.thrown
          ("Failed to load territory metrics: " ++ toString (500 : Nat)))⟩
    ∧ dataService.getTerritoryMetrics
        (TerrFetch.resp 200 (Except.error "bad json") : TerrFetch Nat) =
        ⟨none, some (TerritoryError.parseFailed "bad json")⟩ := by
  obtain ⟨h₁, h₂, h₃⟩ := getTerritoryMetrics_surfaces_errors (σ := Nat)
    "network down" 500 200 (Except.error "server error page") "bad json"
  exact ⟨h₁, h₂ (by decide), h₃ (by decide)⟩

/-- C9: the derived-strategy `getStats` never surfaces an error — on
every fetch outcome (success, rejection, non-2xx, parse failure,
non-iterable body) the returned envelope has `error = null`, every
failure path substitutes the mock fixture stats, the bulk-data fetch is
always attempted, and the result is independent of the mock-mode flag,
which the method never consults. -/
theorem getStats_never_errors {ε : Type} (mock m₂ : Bool) (now msg : String)
    (f : StatsFetch) :
    (dataService.getStats (ε := ε) mock now f).1.error = none
    ∧ (dataService.getStats (ε := ε) mock now f).2 = true
    ∧ dataService.getStats (ε := ε) mock now f =
        dataService.getStats (ε := ε) m₂ now f
    ∧ dataService.getStats (ε := ε) mock now (StatsFetch.reject msg) =
        ({ data := some mockData.stats, error := none }, true) := by
  cases f with
  | reject m => exact ⟨rfl, rfl, rfl, rfl⟩
  | resp s body =>
    refine ⟨?_, ?_, rfl, rfl⟩ <;>
    · simp only [dataService.getStats]
      split
      · cases body with
        | error m => rfl
        | ok b =>
          cases b with
          | records rs => rfl
          | nonIterable => rfl
      · rfl

/-- C10: when the territory-aggregate fetch yields a 2xx response whose
`territories` field is not an array, `getTerritoryMetrics` still succeeds
with `territories = []` and a null error; `groupBy` is
`group_by || 'zip_code'` (defaulting whenever `group_by` is absent or the
falsy empty string, and passing a non-empty string through), `summary` is
`summary || null` (the identity on object-or-absent values); and the
fetched payload is never mutated — only the spread copy is sorted. -/
theorem getTerritoryMetrics_non_array_defaults {σ : Type}
    (gb : Option String) (sm : Option σ) (s : Nat)
    (h : respOk s = true) (f : TerrFetch σ) (str : String) :
    dataService.getTerritoryMetrics (TerrFetch.resp s (Except.ok
        (⟨gb, sm, TerritoriesField.nonArray⟩ : TerritoryPayload σ))) =
      ⟨some ⟨jsStrOr gb "zip_code", jsObjOr sm, []⟩, none⟩
    ∧ jsStrOr none "zip_code" = "zip_code"
    ∧ jsStrOr (some "") "zip_code" = "zip_code"
    ∧ jsObjOr sm = sm
    ∧ jsObjOr (none : Option σ) = none
    ∧ dataService.territoryPayloadAfterCall f = f
    ∧ (str ≠ "" → jsStrOr (some str) "zip_code" = str) := by
  refine ⟨?_, rfl, rfl, ?_, rfl, rfl, ?_⟩
  · simp [dataService.getTerritoryMetrics, h, sortTerritories]
  · cases sm <;> rfl
  · intro hs
    simp [jsStrOr, hs]

/-- C10 witness: a 200 response with an absent `group_by`, an object
`summary` and a non-array `territories` field, plus the pass-through of a
non-empty `group_by` string. -/
theorem getTerritoryMetrics_non_array_defaults_witness :
    dataService.getTerritoryMetrics (TerrFetch.resp 200 (Except.ok
        (⟨none, some 7, TerritoriesField.nonArray⟩ : TerritoryPayload Nat))) =
      ⟨some ⟨"zip_code", some 7, []⟩, none⟩
    ∧ jsStrOr (some "county") "zip_code" = "county" := by
  obtain ⟨h₁, _, _, _, _, _, h₇⟩ := getTerritoryMetrics_non_array_defaults
    (σ := Nat) none (some 7) 200 (by decide) (TerrFetch.reject "x") "county"
  exact ⟨h₁, h₇ (by decide)⟩

/-- C8 (spec-modelled): within one hook instance, when call A starts
(generation 1), call B starts before A resolves (generation 2), B
resolves first and A resolves late, the final state carries B's result
with `loading = false` and A's late result is discarded; in general a
resolution carrying any generation older than the current one leaves the
state untouched, so a later-started call is never overwritten by an
earlier-started call's late response. -/
theorem hook_stale_response_suppression {δ ε : Type}
    (rA rB : ResultEnvelope δ ε)
    (dt : Option δ) (er : Option ε) (ld : Bool) (g d : Nat)
    (r : ResultEnvelope δ ε) :
    runHook [HookEvent.start, HookEvent.start,
        HookEvent.resolve 2 rB, HookEvent.resolve 1 rA] =
      (⟨rB.data, rB.error, false, 2⟩ : HookState δ ε)
    ∧ hookStep (⟨dt, er, ld, g + d + 1⟩ : HookState δ ε)
        (HookEvent.resolve g r) = ⟨dt, er, ld, g + d + 1⟩ := by
  constructor
  · rfl
  · have hne : g + d + 1 ≠ g := by omega
    simp [hookStep, hne]
